import Mathlib

/-!
Verification of the ChemLit Extractor core pipeline.

Shallow embedding of the registration / metadata / file-download pipeline of
`src/chemlit_extractor`. Python strings are modelled as `List Char`; the
`str.lower()` call is modelled on the ASCII range (DOIs, URL schemes and
journal patterns are ASCII). Behaviour that matters to the claims
(per-author commits, the uninitialized `total_size` accumulator of
`FileDownloadService.download_file`, the truthiness tests on optional
values) is reproduced as written in the source.
-/

namespace ChemLit

/-! ## String primitives (Python `str` operations on `List Char`) -/

/-- ASCII model of Python `str.lower` applied to one character. -/
def pyLower (c : Char) : Char :=
  if 65 ≤ c.toNat ∧ c.toNat ≤ 90 then Char.ofNat (c.toNat + 32) else c

/-- `str.lower` over a whole string. -/
def lowerStr (s : List Char) : List Char := s.map pyLower

/-- Python whitespace characters stripped by `str.strip()` (ASCII part:
space, tab, newline, carriage return, vertical tab, form feed). -/
def isPySpace (c : Char) : Bool :=
  decide (c.toNat = 32 ∨ c.toNat = 9 ∨ c.toNat = 10 ∨ c.toNat = 13 ∨
    c.toNat = 11 ∨ c.toNat = 12)

/-- Remove leading whitespace, the leading half of `str.strip()`. -/
def lstrip (s : List Char) : List Char := s.dropWhile isPySpace

/-- Remove trailing whitespace, the trailing half of `str.strip()`. -/
def rstrip (s : List Char) : List Char := (s.reverse.dropWhile isPySpace).reverse

/-- Python `str.strip()`. -/
def pyStrip (s : List Char) : List Char := rstrip (lstrip s)

/-- Python truthiness of an optional string (`None` and `""` are falsy). -/
def isTruthy : Option (List Char) → Bool
  | none => false
  | some s => ¬ s.isEmpty

/-! ## DOI normalizer (`CrossRefClient._clean_doi` / `ArticleService._clean_doi`) -/

/-- The URL/scheme prefixes removed by `_clean_doi`, in the source's order. -/
def doiPrefixes : List (List Char) :=
  [("https://doi.org/").data, ("http://doi.org/").data,
   ("https://dx.doi.org/").data, ("http://dx.doi.org/").data, ("doi:").data]

/-- Strip the first matching known prefix (the source loop `break`s after
the first hit). -/
def stripDoiPrefixes (s : List Char) : List Char :=
  match doiPrefixes.find? (fun p => p.isPrefixOf s) with
  | some p => s.drop p.length
  | none => s

/-- `CrossRefClient._clean_doi` and `ArticleService._clean_doi` (two
textually identical implementations): trim and lowercase, strip one known
URL/`doi:` prefix, then require the result to start with `10.`. -/
def clean_doi (doi : List Char) : Option (List Char) :=
  if doi.isEmpty then none
  else if ("10.").data.isPrefixOf (stripDoiPrefixes (lowerStr (pyStrip doi))) then
    some (stripDoiPrefixes (lowerStr (pyStrip doi)))
  else none

/-! ## Journal mapper (`services/utils.py`) -/

/-- `JournalInfo` named tuple. -/
structure JournalInfo where
  short_name : List Char
  full_name : List Char
  publisher : List Char
deriving DecidableEq, Repr

/-- The `JOURNAL_MAPPINGS` dict of `services/utils.py`, in insertion order
(Python dicts preserve it). -/
def JOURNAL_MAPPINGS : List (List Char × JournalInfo) :=
  [(("10.1039/..ob").data,
    ⟨("Org. Biomol. Chem.").data, ("Organic & Biomolecular Chemistry").data, ("RSC").data⟩),
   (("10.1039/..cc").data,
    ⟨("Chem. Commun.").data, ("Chemical Communications").data, ("RSC").data⟩),
   (("10.1039/..dt").data,
    ⟨("Dalton Trans.").data, ("Dalton Transactions").data, ("RSC").data⟩),
   (("10.1039/..cs").data,
    ⟨("Chem. Soc. Rev.").data, ("Chemical Society Reviews").data, ("RSC").data⟩),
   (("10.1021/acs.joc").data,
    ⟨("J. Org. Chem.").data, ("The Journal of Organic Chemistry").data, ("ACS").data⟩),
   (("10.1021/ja").data,
    ⟨("J. Am. Chem. Soc.").data, ("Journal of the American Chemical Society").data, ("ACS").data⟩),
   (("10.1021/jo").data,
    ⟨("J. Org. Chem.").data, ("The Journal of Organic Chemistry").data, ("ACS").data⟩),
   (("10.3762/bjoc").data,
    ⟨("Beilstein J. Org. Chem.").data, ("Beilstein Journal of Organic Chemistry").data,
     ("Beilstein").data⟩)]

/-- Key lookup in the `JOURNAL_MAPPINGS` dict (`pattern_key in JOURNAL_MAPPINGS`
followed by indexing). -/
def journalMappingsLookup (key : List Char) : Option JournalInfo :=
  (JOURNAL_MAPPINGS.find? (fun e => e.1 = key)).map Prod.snd

/-- Whether a pattern contains the `".."` wildcard marker
(the `".." in pattern` test of the prefix-match loop). -/
def hasDotDot : List Char → Bool
  | '.' :: '.' :: _ => true
  | _ :: rest => hasDotDot rest
  | [] => false

/-- The prefix-match loop over `JOURNAL_MAPPINGS`: first non-wildcard pattern
that is a prefix of the lowercased DOI wins. -/
def prefixScan (dl : List Char) : Option JournalInfo :=
  JOURNAL_MAPPINGS.findSome? (fun e =>
    if ¬ hasDotDot e.1 ∧ e.1.isPrefixOf dl then some e.2 else none)

/-- The RSC special branch of `get_journal_info`: for a lowercased DOI with
registrant prefix `10.1039/`, require the final section (`dl[8:]`) to have
at least 4 characters and look up the code at its 0-based indices 2-3. -/
def rscPositional (dl : List Char) : Option JournalInfo :=
  if ("10.1039/").data.isPrefixOf dl then
    if 4 ≤ (dl.drop 8).length then
      journalMappingsLookup (("10.1039/..").data ++ ((dl.drop 8).drop 2).take 2)
    else none
  else none

/-- `get_journal_info` of `services/utils.py`: RSC positional rule
(characters at 0-based indices 2-3 of the section after `10.1039/`),
then exact-prefix scan, else `None`. -/
def get_journal_info (doi : List Char) : Option JournalInfo :=
  if doi.isEmpty then none
  else
    match rscPositional (lowerStr doi) with
    | some j => some j
    | none => prefixScan (lowerStr doi)

/-! ## CrossRef response and conversion (`services/crossref.py`) -/

/-- A CrossRef date field. `none` models both an absent field and a falsy
(empty) dict; `some dp` models a truthy dict whose `date-parts` value is
`dp` (the `.get("date-parts", [])` default makes a missing key the same as
an empty list, i.e. `some []`). -/
abbrev DateField := Option (List (List Int))

/-- `CrossRefResponse` schema fields consumed by the conversion
(`models/schemas.py`). -/
structure CrossRefResponse where
  DOI : List Char
  title : Option (List (List Char)) := none
  published_print : DateField := none
  published_online : DateField := none
  published : DateField := none
  container_title : Option (List (List Char)) := none
  publisher : Option (List Char) := none
  volume : Option (List Char) := none
  issue : Option (List Char) := none
  page : Option (List Char) := none
  abstract : Option (List Char) := none
  URL : Option (List Char) := none
deriving Repr

/-- `ArticleCreate` schema (fields as persisted; the `doi` has passed the
schema validator, i.e. it is stripped, lowercased and starts with `10.`). -/
structure ArticleCreate where
  doi : List Char
  title : List Char
  journal : Option (List Char) := none
  year : Option Int := none
  volume : Option (List Char) := none
  issue : Option (List Char) := none
  pages : Option (List Char) := none
  abstract : Option (List Char) := none
  url : Option (List Char) := none
  publisher : Option (List Char) := none
deriving DecidableEq, Repr

/-- The `date-parts` drill-down shared by the conversion's two branches:
first element of the first `date-parts` entry, when both levels are
non-empty. -/
def datePartsYear (dp : List (List Int)) : Option Int :=
  match dp with
  | [] => none
  | first :: _ =>
    match first with
    | [] => none
    | y :: _ => some y

/-- The year logic of `CrossRefService._convert_crossref_to_article` as
written: `if crossref_data.published_print: ... elif crossref_data.published_online: ...`.
No other date field is consulted, and a truthy `published_print` without a
usable year does not fall through to `published_online`. -/
def convertYear (r : CrossRefResponse) : Option Int :=
  match r.published_print with
  | some dp => datePartsYear dp
  | none =>
    match r.published_online with
    | some dp => datePartsYear dp
    | none => none

/-- First element of an optional list-of-strings field when present and
non-empty (the `if field and len(field) > 0` pattern). -/
def firstOfList (f : Option (List (List Char))) : Option (List Char) :=
  match f with
  | none => none
  | some [] => none
  | some (x :: _) => some x

/-- `CrossRefService._convert_crossref_to_article`: title defaulting,
journal from `container_title`, the two-field year logic, and all other
fields copied verbatim — in particular the abstract is stored as-is. -/
def convert_crossref_to_article (r : CrossRefResponse) : ArticleCreate :=
  { doi := lowerStr r.DOI
    title := (firstOfList r.title).getD (("Unknown Title").data)
    journal := firstOfList r.container_title
    year := convertYear r
    volume := r.volume
    issue := r.issue
    pages := r.page
    abstract := r.abstract
    url := r.URL
    publisher := r.publisher }

/-- Input shape probed by `extract_year_from_crossref` of
`services/utils.py`: the function takes any object and probes the
attributes `published`, `published_online`, `issued`, `published_print`,
`created` in that order (the dash-spelled variants in its field list are
never attributes of a response object and thus never yield). -/
structure DatedRecord where
  published : DateField := none
  published_online : DateField := none
  issued : DateField := none
  published_print : DateField := none
  created : DateField := none
deriving Repr

/-- `_extract_year_from_date_value`: `None`/falsy gives `None`, else the
first element of the first `date-parts` entry. -/
def extract_year_from_date_value (dv : DateField) : Option Int :=
  match dv with
  | none => none
  | some dp => datePartsYear dp

/-- `extract_year_from_crossref` of `services/utils.py`: first field, in
priority order, whose date value yields a truthy year (`if year:` makes a
zero year fall through). -/
def extract_year_from_crossref (r : DatedRecord) : Option Int :=
  let fields := [r.published, r.published_online, r.issued, r.published_print, r.created]
  fields.findSome? (fun dv =>
    match extract_year_from_date_value dv with
    | some y => if y ≠ 0 then some y else none
    | none => none)

/-! ## Rate limiter (`RateLimiter` of `services/crossref.py`) -/

/-- The `RateLimiter` object: `max_requests`, `time_window` (seconds) and
the recorded request timestamps (clock in whole seconds; `datetime`
arithmetic restricted to an integer clock). -/
structure RateLimiter where
  max_requests : Nat
  time_window : Int
  requests : List Int
deriving DecidableEq, Repr

/-- `can_make_request` at clock `now`: evict timestamps at or before
`now - time_window` (the source keeps `req_time > cutoff`), store the
surviving list back, and compare against `max_requests`. Returns the
mutated limiter and the answer. -/
def can_make_request (rl : RateLimiter) (now : Int) : RateLimiter × Bool :=
  let kept := rl.requests.filter (fun t => now - rl.time_window < t)
  ({ rl with requests := kept }, decide (kept.length < rl.max_requests))

/-- `record_request` at clock `now`. -/
def record_request (rl : RateLimiter) (now : Int) : RateLimiter :=
  { rl with requests := rl.requests ++ [now] }

/-- Binary minimum written out (kernel-reducible). -/
def min2 (a b : Int) : Int := if a ≤ b then a else b

/-- `min(self.requests)` for a non-empty list. -/
def listMin (x : Int) (xs : List Int) : Int := xs.foldl min2 x

/-- `wait_time` at clock `now`: zero when a request can be made or nothing
is recorded; otherwise time until the oldest surviving timestamp leaves the
window. `can_make_request` is called first, so the eviction it performs is
visible to the `min`. -/
def wait_time (rl : RateLimiter) (now : Int) : RateLimiter × Int :=
  let (rl2, ok) := can_make_request rl now
  if ok then (rl2, 0)
  else
    match rl2.requests with
    | [] => (rl2, 0)
    | x :: xs =>
      let wait_until := listMin x xs + rl2.time_window
      if wait_until ≤ now then (rl2, 0) else (rl2, wait_until - now)

/-! ## Persistence model (`database/crud.py`)

The store is modelled at the level visible in the Python source: each
`db.commit()` persists exactly the objects explicitly added to the session.
`AuthorCRUD.create` commits the new author immediately; the article row of
`ArticleCRUD.create` is added and committed only after the author loop.
A forced author-persistence failure (the spec's atomicity scenario) is
injected through a `failOn` oracle deciding which `AuthorCRUD.create`
commits raise; `failOn = fun _ => false` is the unmodified source. -/

/-- `AuthorCreate` schema. -/
structure AuthorCreate where
  first_name : List Char
  last_name : List Char
  orcid : Option (List Char) := none
  email : Option (List Char) := none
deriving DecidableEq, Repr

/-- A persisted author row. -/
structure Author where
  id : Nat
  first_name : List Char
  last_name : List Char
  orcid : Option (List Char) := none
  email : Option (List Char) := none
deriving DecidableEq, Repr

/-- A persisted article row together with its ordered author links. -/
structure ArticleRow where
  data : ArticleCreate
  authors : List Author
deriving DecidableEq, Repr

/-- The relational store. -/
structure DB where
  articles : List ArticleRow := []
  authors : List Author := []
  next_author_id : Nat := 0
deriving DecidableEq, Repr

/-- `ArticleCRUD.get_by_doi`: first row whose DOI equals the lowercased
argument. -/
def ArticleCRUD.get_by_doi (db : DB) (doi : List Char) : Option ArticleRow :=
  db.articles.find? (fun r => r.data.doi = lowerStr doi)

/-- Number of article rows stored under a DOI (for the uniqueness claims). -/
def DB.countDoi (db : DB) (doi : List Char) : Nat :=
  (db.articles.filter (fun r => r.data.doi = lowerStr doi)).length

/-- `AuthorCRUD.create`: insert and commit one author row. `failOn`
injects the spec's forced persistence failure into this commit. -/
def AuthorCRUD.create (failOn : AuthorCreate → Bool) (db : DB) (a : AuthorCreate) :
    Except Unit (DB × Author) :=
  if failOn a then .error ()
  else
    let au : Author :=
      { id := db.next_author_id, first_name := a.first_name, last_name := a.last_name
        orcid := a.orcid, email := a.email }
    .ok ({ db with authors := db.authors ++ [au], next_author_id := db.next_author_id + 1 }, au)

/-- `AuthorCRUD.get_or_create`: find by ORCID when the ORCID is truthy,
else by (first, last) name, else create. -/
def AuthorCRUD.get_or_create (failOn : AuthorCreate → Bool) (db : DB) (a : AuthorCreate) :
    Except Unit (DB × Author) :=
  match (if isTruthy a.orcid then db.authors.find? (fun au => au.orcid = a.orcid) else none) with
  | some au => .ok (db, au)
  | none =>
    match db.authors.find? (fun au =>
        au.first_name = a.first_name ∧ au.last_name = a.last_name) with
    | some au => .ok (db, au)
    | none => AuthorCRUD.create failOn db a

/-- The author loop of `ArticleCRUD.create`: resolve each author in order,
threading the store; a failing `get_or_create` aborts the loop with the
store as committed so far. -/
def resolveAuthors (failOn : AuthorCreate → Bool) (db : DB) :
    List AuthorCreate → DB × Except Unit (List Author)
  | [] => (db, .ok [])
  | a :: rest =>
    match AuthorCRUD.get_or_create failOn db a with
    | .error _ => (db, .error ())
    | .ok (db2, au) =>
      match resolveAuthors failOn db2 rest with
      | (db3, .ok aus) => (db3, .ok (au :: aus))
      | (db3, .error e) => (db3, .error e)

/-- Errors surfaced by `ArticleCRUD.create` (`ValueError` for a duplicate
DOI; an escaping author-persistence exception). -/
inductive CreateError
  | duplicate
  | authorFailure
deriving DecidableEq, Repr

/-- `ArticleCRUD.create`: reject a duplicate DOI, resolve the authors
(committing any newly created author rows one by one), then add and commit
the article row with its author links. -/
def ArticleCRUD.create (failOn : AuthorCreate → Bool) (db : DB)
    (article : ArticleCreate) (authors : List AuthorCreate) :
    DB × Except CreateError ArticleRow :=
  if (ArticleCRUD.get_by_doi db article.doi).isSome then (db, .error .duplicate)
  else
    match resolveAuthors failOn db authors with
    | (db2, .error _) => (db2, .error .authorFailure)
    | (db2, .ok aus) =>
      let row : ArticleRow := { data := article, authors := aus }
      ({ db2 with articles := db2.articles ++ [row] }, .ok row)

/-- Modelled from the spec: `ArticleCRUD.create_with_authors` is called by
`ArticleService.register_article_with_data` (and `register_article_from_doi`)
but is absent from the sources — only its callers exist. The spec (section 4.5
step 4 and the persistence interface `create_article_with_authors`) specifies
atomic creation of an article together with its authors with a clean
duplicate error, which is the contract and argument list of
`ArticleCRUD.create`; it is modelled as that function. -/
def ArticleCRUD.create_with_authors := ArticleCRUD.create

/-! ## Article service (`services/article_service.py`) -/

/-- `RegistrationStatus` enum. -/
inductive RegistrationStatus
  | success
  | error
  | already_exists
  | not_found
deriving DecidableEq, Repr

/-- `OperationType` enum. -/
inductive OperationType
  | created
  | existed
  | fetched
  | updated
deriving DecidableEq, Repr

/-- `FileUrls` model. -/
structure FileUrls where
  pdf_url : Option (List Char) := none
  html_url : Option (List Char) := none
  supplementary_urls : List (List Char) := []
deriving DecidableEq, Repr

/-- `FileDownloadStatus` model (fields used by the claims). -/
structure FileDownloadStatus where
  attempted : Bool := false
  successful_downloads : Nat := 0
  failed_downloads : Nat := 0
  download_method : Option (List Char) := none
  error_message : Option (List Char) := none
deriving DecidableEq, Repr

/-- The File Acquisition Engine as injected into the service
(`self.file_downloader` wrapped by `_handle_file_downloads`); the service
only forwards the DOI and the requested URLs to it. -/
abbrev Downloader := List Char → Option FileUrls → FileDownloadStatus

/-- `ArticleRegistrationResult` model (messages abridged to their constant
heads; no claim inspects message text). -/
structure ArticleRegistrationResult where
  status : RegistrationStatus
  operation_type : Option OperationType := none
  article : Option ArticleRow := none
  source : List Char
  message : List Char
  download_status : Option FileDownloadStatus := none
  warnings : List (List Char) := []
  error_details : Option (List Char) := none
deriving DecidableEq, Repr

/-- `ArticleService._handle_existing_article`: report `already_exists` /
`existed` / `database`, run the downloader exactly when downloads were
requested, and leave the store untouched. -/
def handle_existing_article (downloader : Downloader) (existing : ArticleRow)
    (doi : List Char) (download_files : Bool) (file_urls : Option FileUrls) :
    ArticleRegistrationResult :=
  let ds := if download_files then some (downloader doi file_urls) else none
  { status := .already_exists
    operation_type := some .existed
    article := some existing
    source := ("database").data
    message := ("Article with DOI ").data ++ doi ++ (" already exists").data
    download_status := ds
    warnings := [("Article already exists in database").data] }

/-- `ArticleRegistrationData` schema: direct registration payload whose
`doi` has passed the schema validator (stripped, lowercased, `10.` prefix)
and whose author list is non-empty. -/
structure ArticleRegistrationData where
  doi : List Char
  title : List Char
  journal : Option (List Char) := none
  year : Option Int := none
  volume : Option (List Char) := none
  issue : Option (List Char) := none
  pages : Option (List Char) := none
  abstract : Option (List Char) := none
  url : Option (List Char) := none
  publisher : Option (List Char) := none
  authors : List AuthorCreate := []
deriving DecidableEq, Repr

/-- The invariant established by the `ArticleRegistrationData` validators:
the stored DOI is its own stripped lowercase form and starts with `10.`,
and at least one author with a non-empty name survives the author filter. -/
abbrev validatedDoi (d : List Char) : Prop :=
  pyStrip d = d ∧ lowerStr d = d ∧ ("10.").data.isPrefixOf d

/-- `ArticleService.register_article_with_data`: clean the DOI, short-circuit
on an existing article, otherwise convert the registration payload to an
`ArticleCreate` plus author list and persist them through
`create_with_authors`; downloads run only after a successful create. The
`.getD []` on the cleaned DOI covers a branch the schema validator makes
unreachable (the source would raise on `None`). -/
def register_article_with_data (downloader : Downloader) (failOn : AuthorCreate → Bool)
    (db : DB) (rd : ArticleRegistrationData)
    (download_files : Bool) (file_urls : Option FileUrls) :
    DB × ArticleRegistrationResult :=
  let cd := (clean_doi rd.doi).getD []
  match ArticleCRUD.get_by_doi db cd with
  | some existing => (db, handle_existing_article downloader existing cd download_files file_urls)
  | none =>
    let article_data : ArticleCreate :=
      { doi := rd.doi, title := rd.title, journal := rd.journal, year := rd.year
        volume := rd.volume, issue := rd.issue, pages := rd.pages
        abstract := rd.abstract, url := rd.url, publisher := rd.publisher }
    match ArticleCRUD.create_with_authors failOn db article_data rd.authors with
    | (db2, .ok row) =>
      let ds := if download_files then some (downloader cd file_urls) else none
      (db2,
        { status := .success
          operation_type := some .created
          article := some row
          source := ("direct").data
          message := ("Article registered successfully").data
          download_status := ds })
    | (db2, .error _) =>
      (db2,
        { status := .error
          source := ("database").data
          message := ("Failed to save article").data
          error_details := some (("Failed to save article").data) })

/-! ## File downloader with auto/manual URL downloads (`services/file_downloader.py`) -/

/-- Per-file download outcome dict (`{"success": ..., "error": ...}`). -/
structure DLResult where
  success : Bool
  error : Option (List Char) := none
deriving DecidableEq, Repr

/-- The network boundary of `FileDownloader._download_file`
(`client.get` + `raise_for_status`): per-URL success or an error text. -/
abbrev Fetch := List Char → Except (List Char) Unit

/-- `FileDownloader._download_file`: one URL downloaded and saved on its
own; any exception becomes a per-file failure dict. -/
def FileDownloader.download_one (fetch : Fetch) (url : List Char) : DLResult :=
  match fetch url with
  | .ok _ => { success := true }
  | .error e => { success := false, error := some e }

/-- The `"supplementary"` aggregate of `download_from_urls`:
`success = any`, the per-URL results, and the success count. -/
structure SuppResult where
  success : Bool
  files : List DLResult
  count : Nat
deriving DecidableEq, Repr

/-- Result dict of `download_from_urls`, one key per requested kind. -/
structure UrlsResult where
  pdf : Option DLResult := none
  html : Option DLResult := none
  supplementary : Option SuppResult := none
deriving DecidableEq, Repr

/-- `FileDownloader.download_from_urls`: download each requested URL
independently; the supplementary list is downloaded element-wise and
aggregated. -/
def FileDownloader.download_from_urls (fetch : Fetch)
    (pdf_url html_url : Option (List Char)) (supplementary_urls : List (List Char)) :
    UrlsResult :=
  let pdfR := match pdf_url with
    | some u => if ¬ u.isEmpty then some (FileDownloader.download_one fetch u) else none
    | none => none
  let htmlR := match html_url with
    | some u => if ¬ u.isEmpty then some (FileDownloader.download_one fetch u) else none
    | none => none
  let suppR :=
    if supplementary_urls.isEmpty then none
    else
      let files := supplementary_urls.map (FileDownloader.download_one fetch)
      some { success := files.any (fun r => r.success)
             files := files
             count := (files.filter (fun r => r.success)).length }
  { pdf := pdfR, html := htmlR, supplementary := suppR }

/-! ## Streaming download service (`services/file_download.py` + `file_utils.py`) -/

/-- File categories (`FileType` literal of `file_utils.py`). -/
inductive FileType
  | pdf
  | html
  | supplementary
  | images
deriving DecidableEq, Repr

/-- Allowed extensions per category (`is_allowed_file_type`). -/
def allowed_extensions : FileType → List (List Char)
  | .pdf => [(".pdf").data]
  | .html => [(".html").data, (".htm").data, (".xml").data]
  | .supplementary =>
    [(".pdf").data, (".doc").data, (".docx").data, (".txt").data, (".csv").data,
     (".xlsx").data, (".xls").data, (".zip").data, (".tar").data, (".gz").data,
     (".rar").data, (".7z").data, (".png").data, (".jpg").data, (".jpeg").data,
     (".gif").data, (".tiff").data, (".bmp").data, (".svg").data]
  | .images =>
    [(".png").data, (".jpg").data, (".jpeg").data, (".gif").data, (".tiff").data,
     (".tif").data, (".bmp").data, (".svg").data, (".webp").data]

/-- `Path(filename).suffix`: the last dot segment including the dot, empty
when there is no dot or the only dot is the leading character. -/
def fileSuffix (f : List Char) : List Char :=
  let afterDot := f.reverse.takeWhile (fun c => decide (c ≠ '.'))
  if afterDot.length = f.length then []
  else if f.length - afterDot.length - 1 = 0 ∧ f.head? = some '.' then []
  else '.' :: afterDot.reverse

/-- `is_allowed_file_type`: lowercased suffix membership in the category's
allow-list. -/
def is_allowed_file_type (filename : List Char) (ft : FileType) : Bool :=
  (allowed_extensions ft).contains (lowerStr (fileSuffix filename))

/-- Characters replaced by `get_safe_filename`'s first substitution. -/
def isUnsafeChar (c : Char) : Bool :=
  decide (c = '<' ∨ c = '>' ∨ c = ':' ∨ c = '"' ∨ c = '|' ∨ c = '?' ∨ c = '*' ∨ c = '\\')

/-- One run-collapsing pass (`re.sub(r"[_\s]+", "_", ...)`): `inRun` marks
that the previous character belonged to an underscore/whitespace run. -/
def collapseRunsAux (inRun : Bool) : List Char → List Char
  | [] => []
  | c :: rest =>
    if isPySpace c ∨ c = '_' then
      if inRun then collapseRunsAux true rest else '_' :: collapseRunsAux true rest
    else c :: collapseRunsAux false rest

/-- `re.sub(r"[_\s]+", "_", ...)`. -/
def collapseRuns (s : List Char) : List Char := collapseRunsAux false s

/-- `Path(x).name`: the component after the last slash. -/
def afterLastSlash (f : List Char) : List Char :=
  (f.reverse.takeWhile (fun c => decide (c ≠ '/'))).reverse

/-- Strip `_` from both ends (`.strip("_")`). -/
def stripUnderscores (s : List Char) : List Char :=
  ((s.dropWhile (fun c => decide (c = '_'))).reverse.dropWhile
    (fun c => decide (c = '_'))).reverse

/-- `Path(x).stem`: name minus suffix. -/
def fileStem (f : List Char) : List Char := f.take (f.length - (fileSuffix f).length)

/-- `get_safe_filename` of `file_utils.py`: drop path components, replace
filesystem-unsafe characters, collapse underscore/whitespace runs, cap the
length preserving the extension, strip outer underscores. -/
def get_safe_filename (original : List Char) (max_length : Nat := 100) : List Char :=
  let filename := afterLastSlash original
  let safe := filename.map (fun c => if isUnsafeChar c then '_' else c)
  let safe := collapseRuns safe
  let safe :=
    if max_length < safe.length then
      let stem := fileStem safe
      let suffix := fileSuffix safe
      if 0 < max_length - suffix.length then stem.take (max_length - suffix.length) ++ suffix
      else safe.take max_length
    else safe
  stripUnderscores safe

/-- `urlparse(url).scheme` as consumed by the scheme check: the part before
the first colon, provided a colon exists and no slash precedes it. -/
def schemeOf (url : List Char) : List Char :=
  let pre := url.takeWhile (fun c => decide (c ≠ ':'))
  if pre.length = url.length then []
  else if pre.contains '/' then [] else pre

/-- Skip everything through the first `://`. -/
def afterSchemeSep : List Char → Option (List Char)
  | ':' :: '/' :: '/' :: rest => some rest
  | _ :: rest => afterSchemeSep rest
  | [] => none

/-- `FileDownloadService._extract_filename_from_url`: the URL path's last
component when it has a dot, else a name generated from the domain. -/
def extract_filename_from_url (url : List Char) : List Char :=
  let rest := (afterSchemeSep url).getD url
  let netloc := rest.takeWhile (fun c => decide (c ≠ '/'))
  let name := afterLastSlash (rest.drop netloc.length)
  if ¬ name.isEmpty ∧ name.contains '.' then name
  else
    let domain := if ("www.").data.isPrefixOf netloc then netloc.drop 4 else netloc
    ("download_").data ++ domain ++ (".html").data

/-- Streaming result of `FileDownloadService.download_file` together with
the bytes present at the destination path afterwards (`none` = no file). -/
structure DownloadResult where
  success : Bool
  error : Option (List Char) := none
deriving DecidableEq, Repr

/-- The streaming boundary of `FileDownloadService.download_file`
(`client.stream` + `raise_for_status` + `iter_bytes`): per-URL HTTP error
or the streamed chunk sizes in bytes. -/
abbrev ChunkFetch := List Char → Except (List Char) (List Nat)

/-- `FileDownloadService.download_file` as written: scheme check, filename
sanitizing, extension allow-list, then the streaming loop

```
with open(target_path, "wb") as file:
    for chunk in response.iter_bytes(chunk_size=8192):
        file.write(chunk)
        total_size += len(chunk)
        ...
```

whose `total_size` accumulator is never initialized: the first iteration
writes the first chunk and then raises `NameError`, which the outer
`except Exception` turns into a failure result — with the partial file
still on disk. An empty body skips the loop and passes the final
`validate_file_size` check (0 MB is within any limit). The configured
`max_size_mb` is therefore never reached by the dead size-check branch. -/
def FileDownloadService.download_file (max_size_mb : Nat) (fetch : ChunkFetch)
    (url : List Char) (file_type : FileType) (filename : Option (List Char)) :
    DownloadResult × Option Nat :=
  if ¬ (schemeOf url = ("http").data ∨ schemeOf url = ("https").data) then
    ({ success := false, error := some (("URL must use HTTP or HTTPS protocol").data) }, none)
  else
    let fname := filename.getD (extract_filename_from_url url)
    let safe := get_safe_filename fname
    if ¬ is_allowed_file_type safe file_type then
      ({ success := false, error := some (("File type not allowed").data) }, none)
    else
      match fetch url with
      | .error e => ({ success := false, error := some ((("HTTP error: ").data) ++ e) }, none)
      | .ok chunks =>
        match chunks with
        | [] => ({ success := true }, some 0)
        | c :: _ =>
          ({ success := false
             error := some (("Download failed: name total_size is not defined").data) },
           some c)

/-! ## Concrete instances used by the witnesses and counterexamples -/

/-- A downloader stub recording that it was invoked. -/
def stubDownloader : Downloader := fun _ _ => { attempted := true }

/-- The spec's end-to-end example payload: one article, one author. -/
def c1_rd : ArticleRegistrationData :=
  { doi := ("10.1000/example.doi").data
    title := ("Example Article").data
    authors := [{ first_name := ("Jane").data, last_name := ("Doe").data }] }

/-- Payload for the atomicity scenario: two fresh authors. -/
def c2_rd : ArticleRegistrationData :=
  { doi := ("10.1000/atomic").data
    title := ("T").data
    authors := [{ first_name := ("Ann").data, last_name := ("Ada").data },
                { first_name := ("Bob").data, last_name := ("Beck").data }] }

/-- Forced author-persistence failure on the second author. -/
def c2_failOn : AuthorCreate → Bool := fun a => a.first_name = ("Bob").data

/-- An author row already in the store for the duplicate scenario. -/
def c6_author : Author := { id := 0, first_name := ("Jane").data, last_name := ("Doe").data }

/-- The article row already in the store for the duplicate scenario. -/
def c6_row : ArticleRow :=
  { data := { doi := ("10.1000/example.doi").data, title := ("Example Article").data }
    authors := [c6_author] }

/-- A store already holding the example article. -/
def c6_db : DB := { articles := [c6_row], authors := [c6_author], next_author_id := 1 }

/-! ## Helper lemmas -/

lemma toNat_ofNat_valid {n : Nat} (h : n < 55296) : (Char.ofNat n).toNat = n := by
  rw [Char.ofNat, dif_pos (Or.inl h)]
  rfl

lemma pyLower_toNat (c : Char) :
    (pyLower c).toNat = if 65 ≤ c.toNat ∧ c.toNat ≤ 90 then c.toNat + 32 else c.toNat := by
  unfold pyLower
  split
  case isTrue h => rw [toNat_ofNat_valid (by omega)]
  case isFalse h => rfl

lemma pyLower_idem (c : Char) : pyLower (pyLower c) = pyLower c := by
  have h := pyLower_toNat c
  set d := pyLower c with hd
  have hdn : ¬ (65 ≤ d.toNat ∧ d.toNat ≤ 90) := by
    by_cases h65 : 65 ≤ c.toNat ∧ c.toNat ≤ 90 <;> simp [h65] at h <;> omega
  unfold pyLower
  rw [if_neg hdn]

lemma isPySpace_pyLower (c : Char) : isPySpace (pyLower c) = isPySpace c := by
  have h := pyLower_toNat c
  unfold isPySpace
  by_cases h65 : 65 ≤ c.toNat ∧ c.toNat ≤ 90
  · rw [if_pos h65] at h
    rw [h]
    rw [decide_eq_decide]
    omega
  · rw [if_neg h65] at h
    rw [h]

lemma lowerStr_lowerStr (s : List Char) : lowerStr (lowerStr s) = lowerStr s := by
  simp only [lowerStr, List.map_map]
  simp [Function.comp, pyLower_idem]

lemma stripDoiPrefixes_eq_drop (s : List Char) : ∃ k, stripDoiPrefixes s = s.drop k := by
  unfold stripDoiPrefixes
  cases h : doiPrefixes.find? (fun p => p.isPrefixOf s) with
  | none => exact ⟨0, by simp⟩
  | some p => exact ⟨p.length, rfl⟩

lemma rstrip_getLast (s : List Char) :
    ∀ c, (rstrip s).getLast? = some c → isPySpace c = false := by
  intro c h
  unfold rstrip at h
  rw [List.getLast?_reverse] at h
  have hw := List.head?_dropWhile_not isPySpace s.reverse
  rw [h] at hw
  exact hw

lemma lowerStrip_getLast (x : List Char) :
    ∀ c, (lowerStr (pyStrip x)).getLast? = some c → isPySpace c = false := by
  intro c h
  rw [lowerStr, List.getLast?_map] at h
  cases hh : (pyStrip x).getLast? with
  | none => rw [hh] at h; simp at h
  | some d =>
    rw [hh] at h
    simp only [Option.map_some', Option.some.injEq] at h
    have hd : isPySpace d = false := rstrip_getLast (lstrip x) d hh
    rw [← h, isPySpace_pyLower]
    exact hd

lemma getLast_drop_eq {t : List Char} {k : Nat} (h : ¬ t.drop k = []) :
    (t.drop k).getLast? = t.getLast? := by
  conv_rhs => rw [← List.take_append_drop k t]
  rw [List.getLast?_append]
  cases hl : (t.drop k).getLast? with
  | none => exact absurd (List.getLast?_eq_none_iff.mp hl) h
  | some a => simp

lemma rstrip_eq_self {s : List Char}
    (h : ∀ c, s.getLast? = some c → isPySpace c = false) : rstrip s = s := by
  unfold rstrip
  cases hs : s.reverse with
  | nil =>
    have hnil : s = [] := by simpa using congrArg List.reverse hs
    simp [hnil]
  | cons a as =>
    have ha : s.getLast? = some a := by
      rw [List.getLast?_eq_head?_reverse, hs]
      rfl
    rw [List.dropWhile_cons_of_neg (by simp [h a ha]), ← hs, List.reverse_reverse]

lemma clean_doi_fixes (x y : List Char) (h : clean_doi x = some y) :
    clean_doi y = some y := by
  unfold clean_doi at h
  by_cases hx : x.isEmpty
  · rw [if_pos hx] at h; exact absurd h (by simp)
  rw [if_neg hx] at h
  set t := lowerStr (pyStrip x) with ht
  by_cases hpre : ("10.").data.isPrefixOf (stripDoiPrefixes t)
  swap
  · rw [if_neg hpre] at h; exact absurd h (by simp)
  rw [if_pos hpre] at h
  have hy : y = stripDoiPrefixes t := by injection h with h2; exact h2.symm
  obtain ⟨k, hk⟩ := stripDoiPrefixes_eq_drop t
  have hyp : ("10.").data <+: y := by
    rw [hy]; exact List.isPrefixOf_iff_prefix.mp hpre
  obtain ⟨z, hz⟩ := hyp
  have hynil : ¬ y = [] := by rw [← hz]; simp
  have hlast : ∀ c, y.getLast? = some c → isPySpace c = false := by
    intro c hc
    apply lowerStrip_getLast x c
    rw [← getLast_drop_eq (k := k) (t := t) (by rw [← hk, ← hy]; exact hynil), ← hk, ← hy]
    exact hc
  have hlower : lowerStr y = y := by
    rw [hy, hk, lowerStr, List.map_drop, ← lowerStr]
    rw [ht, lowerStr_lowerStr]
  have hy3 : y = '1' :: '0' :: '.' :: z := by rw [← hz]; rfl
  have hlstrip : lstrip y = y := by
    rw [hy3]
    unfold lstrip
    rw [List.dropWhile_cons_of_neg (by decide)]
  have hrstrip : rstrip y = y := rstrip_eq_self hlast
  have hstripnoop : stripDoiPrefixes y = y := by
    rw [hy3]
    rfl
  unfold clean_doi
  rw [if_neg (by rw [hy3]; simp)]
  rw [show pyStrip y = y by rw [pyStrip, hlstrip, hrstrip]]
  rw [hlower, hstripnoop]
  rw [if_pos (by rw [hy]; exact hpre)]

/-- A DOI that already satisfies the schema validator is a fixed point of
`clean_doi`. -/
lemma clean_doi_validated {d : List Char} (h : validatedDoi d) : clean_doi d = some d := by
  obtain ⟨hs, hl, hp⟩ := h
  obtain ⟨z, hz⟩ := List.isPrefixOf_iff_prefix.mp hp
  have h10 : ("10.").data = ['1', '0', '.'] := by decide
  have hd3 : d = '1' :: '0' :: '.' :: z := by rw [← hz, h10]; rfl
  unfold clean_doi
  rw [if_neg (by rw [hd3]; simp)]
  rw [hs, hl]
  have hstrip : stripDoiPrefixes d = d := by rw [hd3]; rfl
  rw [hstrip, if_pos hp]
lemma foldl_min2_le_init (xs : List Int) : ∀ x, xs.foldl min2 x ≤ x := by
  induction xs with
  | nil => intro x; simp [List.foldl]
  | cons a l ih =>
    intro x
    calc (a :: l).foldl min2 x = l.foldl min2 (min2 x a) := rfl
    _ ≤ min2 x a := ih (min2 x a)
    _ ≤ x := by unfold min2; split <;> omega

lemma foldl_min2_le (xs : List Int) : ∀ x t, t ∈ x :: xs → xs.foldl min2 x ≤ t := by
  induction xs with
  | nil =>
    intro x t ht
    rcases List.mem_cons.mp ht with h | h
    · simp [List.foldl, h]
    · simp at h
  | cons a l ih =>
    intro x t ht
    have hinit : l.foldl min2 (min2 x a) ≤ min2 x a := foldl_min2_le_init l (min2 x a)
    have hx : min2 x a ≤ x := by unfold min2; split <;> omega
    have ha : min2 x a ≤ a := by unfold min2; split <;> omega
    show l.foldl min2 (min2 x a) ≤ t
    rcases List.mem_cons.mp ht with h | h
    · subst h; exact le_trans hinit hx
    · rcases List.mem_cons.mp h with h2 | h2
      · subst h2; exact le_trans hinit ha
      · exact ih (min2 x a) t (List.mem_cons_of_mem _ h2)

lemma foldl_min2_mem (xs : List Int) : ∀ x, xs.foldl min2 x ∈ x :: xs := by
  induction xs with
  | nil => intro x; simp [List.foldl]
  | cons a l ih =>
    intro x
    have hstep : (a :: l).foldl min2 x = l.foldl min2 (min2 x a) := rfl
    rw [hstep]
    rcases List.mem_cons.mp (ih (min2 x a)) with h | h
    · rw [h]
      unfold min2
      split
      · exact List.mem_cons_self _ _
      · exact List.mem_cons_of_mem _ (List.mem_cons_self _ _)
    · exact List.mem_cons_of_mem _ (List.mem_cons_of_mem _ h)

lemma listMin_mem (x : Int) (xs : List Int) : listMin x xs ∈ x :: xs :=
  foldl_min2_mem xs x

lemma listMin_le (x : Int) (xs : List Int) : ∀ t ∈ x :: xs, listMin x xs ≤ t :=
  fun t ht => foldl_min2_le xs x t ht

lemma filter_lt_of_mem_not {l : List Int} {p : Int → Bool} {a : Int}
    (ha : a ∈ l) (hpa : p a = false) : (l.filter p).length < l.length := by
  induction l with
  | nil => simp at ha
  | cons b bs ih =>
    rcases List.mem_cons.mp ha with h | h
    · subst h
      rw [List.filter_cons, hpa]
      simp only [List.length_cons]
      exact Nat.lt_succ_of_le (List.length_filter_le _ _)
    · rw [List.filter_cons]
      cases hb : p b
      · rw [if_neg (by simp [hb])]
        simp only [List.length_cons]
        exact Nat.lt_succ_of_lt (ih h)
      · rw [if_pos (by simp [hb])]
        simp only [List.length_cons, Nat.add_lt_add_iff_right]
        exact ih h

/-- Claim C10 (amended): whenever `can_make_request` returns `False` (with a
60-second window, at least one allowed request, and timestamps not in the
future), `wait_time` is strictly positive and at most 60 seconds; and
provided at most `max_requests` timestamps survive eviction — the invariant
of the client's wait-then-record usage — `can_make_request` returns `True`
after that many seconds with no further `record_request`. Without that
proviso a single wait need not suffice (see the counterexample). -/
theorem C10_rate_limiter_wait_bounds (rl : RateLimiter) (now : Int)
    (hw : rl.time_window = 60)
    (hmax : 1 ≤ rl.max_requests)
    (hle : ∀ t ∈ rl.requests, t ≤ now)
    (hfalse : (can_make_request rl now).2 = false) :
    0 < (wait_time rl now).2 ∧ (wait_time rl now).2 ≤ 60 ∧
    ((can_make_request rl now).1.requests.length ≤ rl.max_requests →
      (can_make_request rl (now + (wait_time rl now).2)).2 = true) := by
  set kept := rl.requests.filter (fun t => decide (now - rl.time_window < t)) with hkept
  have hcm : can_make_request rl now =
      ({ rl with requests := kept }, decide (kept.length < rl.max_requests)) := rfl
  have hge : rl.max_requests ≤ kept.length := by
    rw [hcm] at hfalse
    simp at hfalse
    exact hfalse
  have hne : kept ≠ [] := by
    intro hnil
    rw [hnil] at hge
    simp at hge
    omega
  obtain ⟨x, xs, hcons⟩ : ∃ x xs, kept = x :: xs := by
    cases hk2 : kept with
    | nil => exact absurd hk2 hne
    | cons a l => exact ⟨a, l, rfl⟩
  have hmem_facts : ∀ t ∈ kept, t ∈ rl.requests ∧ now - 60 < t := by
    intro t ht
    rw [hkept] at ht
    have := List.mem_filter.mp ht
    refine ⟨this.1, ?_⟩
    have h2 := this.2
    rw [hw] at h2
    exact of_decide_eq_true h2
  have hm_mem : listMin x xs ∈ kept := by rw [hcons]; exact listMin_mem x xs
  have hm_le : ∀ t ∈ kept, listMin x xs ≤ t := by rw [hcons]; exact listMin_le x xs
  have hmlow : now - 60 < listMin x xs := (hmem_facts _ hm_mem).2
  have hmhigh : listMin x xs ≤ now := hle _ (hmem_facts _ hm_mem).1
  have hwt : (wait_time rl now).2 = listMin x xs + 60 - now := by
    unfold wait_time
    rw [hcm]
    have hok : (decide (kept.length < rl.max_requests)) = false := by
      simp
      exact hge
    simp only [hok, if_false, Bool.false_eq_true]
    rw [hcons]
    simp only []
    rw [if_neg (by simp [hw]; omega)]
    show listMin x xs + rl.time_window - now = listMin x xs + 60 - now
    rw [hw]
  refine ⟨by omega, by omega, ?_⟩
  intro hK
  rw [hcm] at hK
  simp only [] at hK
  have hkeptK : kept.length ≤ rl.max_requests := hK
  rw [hwt]
  have harith : now + (listMin x xs + 60 - now) = listMin x xs + 60 := by ring
  rw [harith]
  unfold can_make_request
  simp only []
  apply decide_eq_true
  have hfeq : rl.requests.filter (fun t => decide (listMin x xs + 60 - rl.time_window < t)) =
      kept.filter (fun t => decide (listMin x xs < t)) := by
    rw [hkept, List.filter_filter]
    apply List.filter_congr
    intro a _
    rw [hw]
    have h60 : listMin x xs + 60 - 60 = listMin x xs := by ring
    rw [h60]
    cases hlt : decide (listMin x xs < a) with
    | true =>
      have := of_decide_eq_true hlt
      simp [decide_eq_true_eq]
      omega
    | false => simp
  rw [hfeq]
  have hstrict : (kept.filter (fun t => decide (listMin x xs < t))).length < kept.length := by
    apply filter_lt_of_mem_not hm_mem
    simp
  omega

lemma get_journal_info_rsc_characterization :
    ∀ (doi s : List Char), lowerStr doi = ("10.1039/").data ++ s →
      get_journal_info doi =
        if 4 ≤ s.length then
          journalMappingsLookup ((("10.1039/..").data) ++ (s.drop 2).take 2)
        else none := by
  intro doi s h
  have h8 : ("10.1039/").data = ['1', '0', '.', '1', '0', '3', '9', '/'] := by decide
  have hne : ¬ doi.isEmpty := by
    cases doi with
    | nil =>
      exfalso
      rw [lowerStr, List.map_nil, h8] at h
      simp at h
    | cons a l => simp
  unfold get_journal_info
  rw [if_neg hne, h]
  have hdrop : ((("10.1039/").data) ++ s).drop 8 = s := by
    rw [h8]
    rfl
  have hpre : (("10.1039/").data).isPrefixOf ((("10.1039/").data) ++ s) = true := by
    rw [List.isPrefixOf_iff_prefix]
    exact ⟨s, rfl⟩
  unfold rscPositional
  rw [if_pos hpre, hdrop]
  by_cases h4 : 4 ≤ s.length
  · rw [if_pos h4]
    cases hl : journalMappingsLookup ((("10.1039/..").data) ++ (s.drop 2).take 2) with
    | some j => rfl
    | none =>
      show prefixScan ((("10.1039/").data) ++ s) = none
      rfl
  · rw [if_neg h4]
    show prefixScan ((("10.1039/").data) ++ s) = none
    rfl

lemma download_from_urls_componentwise :
    (∀ (f : Fetch) (pu hu : Option (List Char)) (su : List (List Char)),
      ¬ su.isEmpty →
      ∃ sr, (FileDownloader.download_from_urls f pu hu su).supplementary = some sr ∧
        sr.files.length = su.length ∧
        ∀ (i : Nat) (hi : i < su.length) (hi2 : i < sr.files.length),
          sr.files.get ⟨i, hi2⟩ = FileDownloader.download_one f (su.get ⟨i, hi⟩)) ∧
    (∀ (f g : Fetch) (pu hu : Option (List Char)) (su : List (List Char)) (u : List Char),
      pu = some u → f u = g u →
      (FileDownloader.download_from_urls f pu hu su).pdf =
        (FileDownloader.download_from_urls g pu hu su).pdf) := by
  constructor
  · intro f pu hu su hne
    refine ⟨{ success := (su.map (FileDownloader.download_one f)).any (fun r => r.success)
              files := su.map (FileDownloader.download_one f)
              count := ((su.map (FileDownloader.download_one f)).filter
                (fun r => r.success)).length }, ?_, ?_, ?_⟩
    · unfold FileDownloader.download_from_urls
      simp only [if_neg hne]
    · simp
    · intro i hi hi2
      apply List.get_map
  · intro f g pu hu su u hpu hfg
    unfold FileDownloader.download_from_urls
    rw [hpu]
    simp only []
    by_cases he : u.isEmpty
    · rw [if_neg (by simp [he]), if_neg (by simp [he])]
    · rw [if_pos (by simp [he]), if_pos (by simp [he])]
      unfold FileDownloader.download_one
      rw [hfg]

lemma get_or_create_articles (failOn : AuthorCreate → Bool) (db : DB) (a : AuthorCreate)
    {db2 : DB} {au : Author}
    (h : AuthorCRUD.get_or_create failOn db a = .ok (db2, au)) :
    db2.articles = db.articles := by
  unfold AuthorCRUD.get_or_create at h
  cases hf : (if isTruthy a.orcid then db.authors.find? (fun au => au.orcid = a.orcid) else none) with
  | some au2 => rw [hf] at h; injection h with h2; cases h2; rfl
  | none =>
    rw [hf] at h
    cases hn : db.authors.find? (fun au =>
        au.first_name = a.first_name ∧ au.last_name = a.last_name) with
    | some au3 => rw [hn] at h; injection h with h2; cases h2; rfl
    | none =>
      rw [hn] at h
      unfold AuthorCRUD.create at h
      by_cases hfo : failOn a
      · rw [if_pos hfo] at h; exact absurd h (by simp)
      · rw [if_neg hfo] at h
        injection h with h2
        cases h2
        rfl

lemma get_or_create_noOrcid (failOn : AuthorCreate → Bool) (db : DB) (a : AuthorCreate)
    (horcid : a.orcid = none) (hfail : failOn a = false) :
    ∃ db2 au, AuthorCRUD.get_or_create failOn db a = .ok (db2, au) ∧
      au.first_name = a.first_name ∧ au.last_name = a.last_name := by
  unfold AuthorCRUD.get_or_create
  rw [horcid]
  have htr : isTruthy (none : Option (List Char)) = false := rfl
  rw [htr]
  simp only [Bool.false_eq_true, if_false]
  cases hn : db.authors.find? (fun au =>
      au.first_name = a.first_name ∧ au.last_name = a.last_name) with
  | some au =>
    have hp := List.find?_some hn
    have hp2 := of_decide_eq_true hp
    exact ⟨db, au, rfl, hp2.1, hp2.2⟩
  | none =>
    unfold AuthorCRUD.create
    rw [if_neg (by rw [hfail]; simp)]
    exact ⟨_, _, rfl, rfl, rfl⟩

lemma resolveAuthors_ok_names (failOn : AuthorCreate → Bool) :
    ∀ (authors : List AuthorCreate) (db : DB),
    (∀ a ∈ authors, a.orcid = none) → (∀ a ∈ authors, failOn a = false) →
    ∃ db2 aus, resolveAuthors failOn db authors = (db2, .ok aus) ∧
      aus.map (fun au => (au.first_name, au.last_name)) =
        authors.map (fun a => (a.first_name, a.last_name)) ∧
      db2.articles = db.articles := by
  intro authors
  induction authors with
  | nil => intro db _ _; exact ⟨db, [], rfl, rfl, rfl⟩
  | cons a rest ih =>
    intro db ho hf
    obtain ⟨db2, au, hgc, hfn, hln⟩ :=
      get_or_create_noOrcid failOn db a (ho a (List.mem_cons_self _ _))
        (hf a (List.mem_cons_self _ _))
    obtain ⟨db3, aus, hrest, hmap, hart⟩ :=
      ih db2 (fun x hx => ho x (List.mem_cons_of_mem _ hx))
        (fun x hx => hf x (List.mem_cons_of_mem _ hx))
    refine ⟨db3, au :: aus, ?_, ?_, ?_⟩
    · unfold resolveAuthors
      rw [hgc]
      simp only []
      rw [hrest]
    · simp only [List.map_cons, hfn, hln, hmap]
    · rw [hart, get_or_create_articles failOn db a hgc]

lemma resolveAuthors_articles (failOn : AuthorCreate → Bool) :
    ∀ (authors : List AuthorCreate) (db : DB),
    (resolveAuthors failOn db authors).1.articles = db.articles := by
  intro authors
  induction authors with
  | nil => intro db; rfl
  | cons a rest ih =>
    intro db
    unfold resolveAuthors
    cases hgc : AuthorCRUD.get_or_create failOn db a with
    | error e => rfl
    | ok pr =>
      obtain ⟨db2, au⟩ := pr
      simp only []
      cases hr : resolveAuthors failOn db2 rest with
      | mk db3 res =>
        have harts : db3.articles = db2.articles := by
          have := ih db2
          rw [hr] at this
          exact this
        cases res with
        | ok aus => simp only []; rw [harts, get_or_create_articles failOn db a hgc]
        | error e => simp only []; rw [harts, get_or_create_articles failOn db a hgc]

lemma create_error_articles (failOn : AuthorCreate → Bool) (db : DB)
    (article : ArticleCreate) (authors : List AuthorCreate)
    (h : (ArticleCRUD.create failOn db article authors).2.isOk = false) :
    (ArticleCRUD.create failOn db article authors).1.articles = db.articles := by
  unfold ArticleCRUD.create at h ⊢
  by_cases hd : (ArticleCRUD.get_by_doi db article.doi).isSome
  · rw [if_pos hd] at h ⊢
  · rw [if_neg hd] at h ⊢
    cases hr : resolveAuthors failOn db authors with
    | mk db2 res =>
      have harts : db2.articles = db.articles := by
        have := resolveAuthors_articles failOn authors db
        rw [hr] at this
        exact this
      cases res with
      | ok aus => rw [hr] at h; simp [Except.isOk, Except.toBool] at h
      | error e => exact harts

/-- Claim C1: a direct registration request with a valid DOI, non-empty
title and at least one author with non-empty names, against a store with no
article under that DOI, returns `status = success`, `operation_type =
created`, and persists an article row whose author list carries exactly the
supplied author names in order. (Authors without ORCIDs; an ORCID-bearing
author is deduplicated to the row with the same ORCID by
`AuthorCRUD.get_or_create`, which is the same author by the data model's
identity.) `ArticleCRUD.create_with_authors` is modelled from the spec, see
its doc comment. -/
theorem C1_direct_registration_creates_with_authors (downloader : Downloader) (db : DB) (rd : ArticleRegistrationData)
    (dlf : Bool) (urls : Option FileUrls)
    (hv : validatedDoi rd.doi)
    (htitle : ¬ rd.title.isEmpty)
    (hauth : rd.authors ≠ [])
    (hnames : ∀ a ∈ rd.authors, ¬ a.first_name.isEmpty ∧ ¬ a.last_name.isEmpty)
    (horcid : ∀ a ∈ rd.authors, a.orcid = none)
    (hnew : ArticleCRUD.get_by_doi db rd.doi = none) :
    (register_article_with_data downloader (fun _ => false) db rd dlf urls).2.status =
        RegistrationStatus.success ∧
    (register_article_with_data downloader (fun _ => false) db rd dlf urls).2.operation_type =
        some OperationType.created ∧
    ∃ row,
      (register_article_with_data downloader (fun _ => false) db rd dlf urls).2.article =
          some row ∧
      ArticleCRUD.get_by_doi
        (register_article_with_data downloader (fun _ => false) db rd dlf urls).1 rd.doi =
          some row ∧
      row.authors.map (fun au => (au.first_name, au.last_name)) =
        rd.authors.map (fun a => (a.first_name, a.last_name)) := by
  have hcd : (clean_doi rd.doi).getD [] = rd.doi := by rw [clean_doi_validated hv]; rfl
  obtain ⟨db2, aus, hres, hmap, hart⟩ :=
    resolveAuthors_ok_names (fun _ => false) rd.authors db horcid (fun a _ => rfl)
  set AD : ArticleCreate :=
    { doi := rd.doi, title := rd.title, journal := rd.journal, year := rd.year
      volume := rd.volume, issue := rd.issue, pages := rd.pages
      abstract := rd.abstract, url := rd.url, publisher := rd.publisher } with hAD
  have hADdoi : AD.doi = rd.doi := rfl
  have hcreate : ArticleCRUD.create (fun _ => false) db AD rd.authors =
      ({ db2 with articles := db2.articles ++ [⟨AD, aus⟩] }, .ok ⟨AD, aus⟩) := by
    unfold ArticleCRUD.create
    rw [if_neg (by rw [hADdoi, hnew]; simp)]
    rw [hres]
  have hreg : register_article_with_data downloader (fun _ => false) db rd dlf urls =
      ({ db2 with articles := db2.articles ++ [⟨AD, aus⟩] },
        { status := RegistrationStatus.success
          operation_type := some OperationType.created
          article := some ⟨AD, aus⟩
          source := ("direct").data
          message := ("Article registered successfully").data
          download_status := if dlf then some (downloader rd.doi urls) else none }) := by
    unfold register_article_with_data
    rw [hcd]
    show (match ArticleCRUD.get_by_doi db rd.doi with
      | some existing => (db, handle_existing_article downloader existing rd.doi dlf urls)
      | none =>
        match ArticleCRUD.create_with_authors (fun _ => false) db AD rd.authors with
        | (db2, Except.ok row) =>
          (db2,
            { status := RegistrationStatus.success, operation_type := some OperationType.created
              article := some row, source := ("direct").data
              message := ("Article registered successfully").data
              download_status := if dlf = true then some (downloader rd.doi urls) else none })
        | (db2, Except.error _) =>
          (db2,
            { status := RegistrationStatus.error, source := ("database").data
              message := ("Failed to save article").data
              error_details := some (("Failed to save article").data) })) = _
    rw [hnew]
    unfold ArticleCRUD.create_with_authors
    rw [hcreate]
  rw [hreg]
  refine ⟨rfl, rfl, ⟨AD, aus⟩, rfl, ?_, hmap⟩
  unfold ArticleCRUD.get_by_doi
  simp only []
  rw [hart]
  have hfind : db.articles.find? (fun r => decide (r.data.doi = lowerStr rd.doi)) = none := hnew
  rw [List.find?_append, hfind]
  have hp : (fun (r : ArticleRow) => decide (r.data.doi = lowerStr rd.doi)) ⟨AD, aus⟩ = true := by
    simp only [hADdoi, hv.2.1]
    simp
  simp only [Option.none_or]
  exact List.find?_cons_of_pos [] hp

lemma register_unfold (downloader : Downloader) (failOn : AuthorCreate → Bool)
    (db : DB) (rd : ArticleRegistrationData) (dlf : Bool) (urls : Option FileUrls) :
    register_article_with_data downloader failOn db rd dlf urls =
      (match ArticleCRUD.get_by_doi db ((clean_doi rd.doi).getD []) with
       | some existing =>
         (db, handle_existing_article downloader existing ((clean_doi rd.doi).getD []) dlf urls)
       | none =>
         match ArticleCRUD.create_with_authors failOn db
             { doi := rd.doi, title := rd.title, journal := rd.journal, year := rd.year
               volume := rd.volume, issue := rd.issue, pages := rd.pages
               abstract := rd.abstract, url := rd.url, publisher := rd.publisher } rd.authors with
         | (db2, .ok row) =>
           (db2,
             { status := RegistrationStatus.success
               operation_type := some OperationType.created
               article := some row
               source := ("direct").data
               message := ("Article registered successfully").data
               download_status :=
                 if dlf then some (downloader ((clean_doi rd.doi).getD []) urls) else none })
         | (db2, .error _) =>
           (db2,
             { status := RegistrationStatus.error
               source := ("database").data
               message := ("Failed to save article").data
               error_details := some (("Failed to save article").data) })) := rfl

/-- Claim C6: registering a DOI that already exists in the store does not
re-create anything: the outcome is `already_exists` / `existed` /
`database`, the store is returned unchanged (so it still holds exactly one
row for the DOI), and the File Acquisition Engine is invoked exactly when
file download was requested. -/
theorem C6_existing_doi_short_circuits (downloader : Downloader) (failOn : AuthorCreate → Bool) (db : DB)
    (rd : ArticleRegistrationData) (dlf : Bool) (urls : Option FileUrls)
    (existing : ArticleRow)
    (hv : validatedDoi rd.doi)
    (hex : ArticleCRUD.get_by_doi db rd.doi = some existing)
    (hcount : db.countDoi rd.doi = 1) :
    (register_article_with_data downloader failOn db rd dlf urls).2.status =
        RegistrationStatus.already_exists ∧
    (register_article_with_data downloader failOn db rd dlf urls).2.operation_type =
        some OperationType.existed ∧
    (register_article_with_data downloader failOn db rd dlf urls).2.source =
        ("database").data ∧
    (register_article_with_data downloader failOn db rd dlf urls).2.article = some existing ∧
    (register_article_with_data downloader failOn db rd dlf urls).1 = db ∧
    (register_article_with_data downloader failOn db rd dlf urls).1.countDoi rd.doi = 1 ∧
    (register_article_with_data downloader failOn db rd dlf urls).2.download_status.isSome
        = dlf := by
  have hcd : (clean_doi rd.doi).getD [] = rd.doi := by rw [clean_doi_validated hv]; rfl
  have hreg : register_article_with_data downloader failOn db rd dlf urls =
      (db, handle_existing_article downloader existing rd.doi dlf urls) := by
    rw [register_unfold, hcd, hex]
  rw [hreg]
  refine ⟨rfl, rfl, rfl, rfl, rfl, hcount, ?_⟩
  unfold handle_existing_article
  simp only []
  cases dlf <;> rfl

/-- Claim C2 (amended): whenever a registration reports `status = error` —
in particular when author persistence fails partway — the article table is
unchanged, so no article row for the DOI remains. Author rows committed for
earlier authors in the list do remain (each `AuthorCRUD.create` commits
individually), so orphaned author rows are possible — see the
counterexample. -/
theorem C2_failed_registration_preserves_articles (downloader : Downloader) (failOn : AuthorCreate → Bool) (db : DB)
    (rd : ArticleRegistrationData) (dlf : Bool) (urls : Option FileUrls)
    (herr : (register_article_with_data downloader failOn db rd dlf urls).2.status =
      RegistrationStatus.error) :
    (register_article_with_data downloader failOn db rd dlf urls).1.articles = db.articles := by
  rw [register_unfold] at herr ⊢
  cases hex : ArticleCRUD.get_by_doi db ((clean_doi rd.doi).getD []) with
  | some ex =>
    rw [hex] at herr
  | none =>
    rw [hex] at herr
    simp only [] at herr
    unfold ArticleCRUD.create_with_authors at herr ⊢
    cases hcr : ArticleCRUD.create failOn db
        { doi := rd.doi, title := rd.title, journal := rd.journal, year := rd.year
          volume := rd.volume, issue := rd.issue, pages := rd.pages
          abstract := rd.abstract, url := rd.url, publisher := rd.publisher } rd.authors with
    | mk db2 res =>
      cases res with
      | ok row => rw [hcr] at herr; simp at herr
      | error e =>
        have hart := create_error_articles failOn db
          { doi := rd.doi, title := rd.title, journal := rd.journal, year := rd.year
            volume := rd.volume, issue := rd.issue, pages := rd.pages
            abstract := rd.abstract, url := rd.url, publisher := rd.publisher } rd.authors
          (by rw [hcr]; rfl)
        rw [hcr] at hart
        exact hart


/-! ## Claim theorems, witnesses and counterexamples -/

/-- Claim C3 (code bug evaluation): on a record carrying `published = 2020`
and `published_online = 2021`, the conversion used by the pipeline returns
2021 — it never consults `published` (with only `published` set it returns
no year at all) — while the repository's own `extract_year_from_crossref`
utility, which implements the claimed priority order, returns 2020. -/
theorem C3_year_priority_divergence :
    (convert_crossref_to_article
        { DOI := ("10.1000/x").data
          published := some [[2020]]
          published_online := some [[2021]] }).year = some 2021 ∧
    some (2021 : Int) ≠ some (2020 : Int) ∧
    (convert_crossref_to_article
        { DOI := ("10.1000/x").data, published := some [[2020]] }).year = none ∧
    extract_year_from_crossref
        { published := some [[2020]], published_online := some [[2021]] } = some 2020 := by
  decide

/-- Claim C4 (code bug evaluation): the conversion stores the abstract
verbatim — the JATS markup of the spec's example is not stripped — though
an absent abstract does map to `none`. -/
theorem C4_abstract_stored_verbatim :
    (convert_crossref_to_article
        { DOI := ("10.1000/x").data
          abstract := some (("<jats:p>A<jats:sub>2</jats:sub>B</jats:p>").data) }).abstract =
      some (("<jats:p>A<jats:sub>2</jats:sub>B</jats:p>").data) ∧
    some (("<jats:p>A<jats:sub>2</jats:sub>B</jats:p>").data) ≠ some (("A2B").data) ∧
    (convert_crossref_to_article { DOI := ("10.1000/x").data }).abstract = none := by
  decide

/-- Claim C5 (code bug evaluation): a download whose body (two 50 MB
chunks) exceeds the 100 MB limit does return a failed result, but a
partial file — the first chunk — remains on disk: the uninitialized
`total_size` accumulator raises `NameError` right after the first chunk is
written, so the size-limit branch that would delete the partial file is
unreachable. -/
theorem C5_oversized_download_leaves_partial_file :
    100 * 1024 * 1024 < 52428800 + 52428801 ∧
    (FileDownloadService.download_file 100 (fun _ => .ok [52428800, 52428801])
        (("https://example.com/big.pdf").data) FileType.pdf
        (some (("big.pdf").data))).1.success = false ∧
    (FileDownloadService.download_file 100 (fun _ => .ok [52428800, 52428801])
        (("https://example.com/big.pdf").data) FileType.pdf
        (some (("big.pdf").data))).2 = some 52428800 ∧
    (FileDownloadService.download_file 100 (fun _ => .ok [52428800, 52428801])
        (("https://example.com/big.pdf").data) FileType.pdf
        (some (("big.pdf").data))).2 ≠ none := by
  decide

/-- Claim C7: for a DOI with registrant prefix `10.1039/`, the lookup
requires the following section to have at least 4 characters, matches the
code at its 0-based indices 2-3 against the positional rules exactly, and
returns `none` when the code is unmapped; with the worked examples. -/
theorem C7_rsc_positional_rule :
    (∀ (doi s : List Char), lowerStr doi = ("10.1039/").data ++ s →
      get_journal_info doi =
        if 4 ≤ s.length then
          journalMappingsLookup ((("10.1039/..").data) ++ (s.drop 2).take 2)
        else none) ∧
    get_journal_info (("10.1039/d5ob00519a").data) =
      some ⟨("Org. Biomol. Chem.").data, ("Organic & Biomolecular Chemistry").data,
        ("RSC").data⟩ ∧
    get_journal_info (("10.1039/d5xx00519a").data) = none :=
  ⟨get_journal_info_rsc_characterization, by decide, by decide⟩

/-- Witness for C7 at the spec's example DOI. -/
theorem C7_rsc_positional_rule_witness :
    get_journal_info (("10.1039/d5ob00519a").data) =
      (if 4 ≤ (("d5ob00519a").data).length then
        journalMappingsLookup ((("10.1039/..").data) ++ (((("d5ob00519a").data)).drop 2).take 2)
      else none) :=
  C7_rsc_positional_rule.1 (("10.1039/d5ob00519a").data) (("d5ob00519a").data) (by decide)

/-- Claim C8: each requested URL is downloaded independently — the
supplementary aggregate holds one outcome per URL, each outcome is a
function of its own URL's fetch alone, and the pdf component does not
change when the fetch behaviour changes on other URLs; the spec's example
(pdf + html + 2 supplementary, one of which 404s) produces 3 successes and
1 documented failure. -/
theorem C8_independent_downloads :
    (∀ (f : Fetch) (pu hu : Option (List Char)) (su : List (List Char)),
      ¬ su.isEmpty →
      ∃ sr, (FileDownloader.download_from_urls f pu hu su).supplementary = some sr ∧
        sr.files.length = su.length ∧
        ∀ (i : Nat) (hi : i < su.length) (hi2 : i < sr.files.length),
          sr.files.get ⟨i, hi2⟩ = FileDownloader.download_one f (su.get ⟨i, hi⟩)) ∧
    (∀ (f g : Fetch) (pu hu : Option (List Char)) (su : List (List Char)) (u : List Char),
      pu = some u → f u = g u →
      (FileDownloader.download_from_urls f pu hu su).pdf =
        (FileDownloader.download_from_urls g pu hu su).pdf) ∧
    FileDownloader.download_from_urls
        (fun u => if u = (("https://pub.example/supp2.zip").data)
          then Except.error (("404 Not Found").data) else Except.ok ())
        (some (("https://pub.example/article.pdf").data))
        (some (("https://pub.example/article.html").data))
        [("https://pub.example/supp1.zip").data, ("https://pub.example/supp2.zip").data] =
      { pdf := some { success := true }
        html := some { success := true }
        supplementary := some
          { success := true
            files := [{ success := true },
                      { success := false, error := some (("404 Not Found").data) }]
            count := 1 } } :=
  ⟨download_from_urls_componentwise.1, download_from_urls_componentwise.2, by decide⟩

/-- Witness for C8: the per-URL outcome of the example's two supplementary
URLs. -/
theorem C8_independent_downloads_witness :
    ∃ sr,
      (FileDownloader.download_from_urls
          (fun u => if u = (("https://pub.example/supp2.zip").data)
            then Except.error (("404 Not Found").data) else Except.ok ())
          (some (("https://pub.example/article.pdf").data))
          (some (("https://pub.example/article.html").data))
          [("https://pub.example/supp1.zip").data,
           ("https://pub.example/supp2.zip").data]).supplementary = some sr ∧
      sr.files.length =
        [("https://pub.example/supp1.zip").data,
         ("https://pub.example/supp2.zip").data].length ∧
      ∀ (i : Nat)
        (hi : i < [("https://pub.example/supp1.zip").data,
                   ("https://pub.example/supp2.zip").data].length)
        (hi2 : i < sr.files.length),
        sr.files.get ⟨i, hi2⟩ =
          FileDownloader.download_one
            (fun u => if u = (("https://pub.example/supp2.zip").data)
              then Except.error (("404 Not Found").data) else Except.ok ())
            ([("https://pub.example/supp1.zip").data,
              ("https://pub.example/supp2.zip").data].get ⟨i, hi⟩) :=
  C8_independent_downloads.1
    (fun u => if u = (("https://pub.example/supp2.zip").data)
      then Except.error (("404 Not Found").data) else Except.ok ())
    (some (("https://pub.example/article.pdf").data))
    (some (("https://pub.example/article.html").data))
    [("https://pub.example/supp1.zip").data, ("https://pub.example/supp2.zip").data]
    (by decide)

/-- Claim C9: DOI normalization is idempotent on its successful outputs,
and the worked example normalizes as specified. -/
theorem C9_doi_normalization_idempotent :
    (∀ x y : List Char, clean_doi x = some y → clean_doi y = some y) ∧
    clean_doi (("HTTPS://DOI.ORG/10.1000/Test").data) = some (("10.1000/test").data) :=
  ⟨clean_doi_fixes, by decide⟩

/-- Witness for C9 at the worked example. -/
theorem C9_doi_normalization_idempotent_witness :
    clean_doi (("10.1000/test").data) = some (("10.1000/test").data) :=
  C9_doi_normalization_idempotent.1 (("HTTPS://DOI.ORG/10.1000/Test").data)
    (("10.1000/test").data) (by decide)

/-- Witness for C1: the spec's end-to-end example against an empty store. -/
theorem C1_direct_registration_creates_with_authors_witness :
    (register_article_with_data stubDownloader (fun _ => false) {} c1_rd false none).2.status =
        RegistrationStatus.success ∧
    (register_article_with_data stubDownloader (fun _ => false) {} c1_rd false
        none).2.operation_type = some OperationType.created ∧
    ∃ row,
      (register_article_with_data stubDownloader (fun _ => false) {} c1_rd false
          none).2.article = some row ∧
      ArticleCRUD.get_by_doi
        (register_article_with_data stubDownloader (fun _ => false) {} c1_rd false none).1
        c1_rd.doi = some row ∧
      row.authors.map (fun au => (au.first_name, au.last_name)) =
        c1_rd.authors.map (fun a => (a.first_name, a.last_name)) :=
  C1_direct_registration_creates_with_authors stubDownloader {} c1_rd false none
    (by decide) (by decide) (by decide) (by decide) (by decide) (by decide)

/-- Claim C2 counterexample: with the forced failure on the second author,
registration errors and leaves no article row — but the first author's
freshly committed row remains in the store with no article at all, an
orphaned author row, contradicting the all-or-nothing claim. -/
theorem C2_counterexample_orphaned_author_row :
    (register_article_with_data stubDownloader c2_failOn {} c2_rd false none).2.status =
        RegistrationStatus.error ∧
    (register_article_with_data stubDownloader c2_failOn {} c2_rd false none).1.articles = [] ∧
    (register_article_with_data stubDownloader c2_failOn {} c2_rd false none).1.authors =
      [{ id := 0, first_name := ("Ann").data, last_name := ("Ada").data }] := by
  decide

/-- Witness for C2 at the forced-failure scenario. -/
theorem C2_failed_registration_preserves_articles_witness :
    (register_article_with_data stubDownloader c2_failOn {} c2_rd false none).1.articles =
      DB.articles {} :=
  C2_failed_registration_preserves_articles stubDownloader c2_failOn {} c2_rd false none
    (by decide)

/-- Witness for C6: registering the example DOI against a store that
already holds it, with file download requested. -/
theorem C6_existing_doi_short_circuits_witness :
    (register_article_with_data stubDownloader (fun _ => false) c6_db c1_rd true none).2.status =
        RegistrationStatus.already_exists ∧
    (register_article_with_data stubDownloader (fun _ => false) c6_db c1_rd true
        none).2.operation_type = some OperationType.existed ∧
    (register_article_with_data stubDownloader (fun _ => false) c6_db c1_rd true none).2.source =
        ("database").data ∧
    (register_article_with_data stubDownloader (fun _ => false) c6_db c1_rd true none).2.article =
        some c6_row ∧
    (register_article_with_data stubDownloader (fun _ => false) c6_db c1_rd true none).1 =
        c6_db ∧
    (register_article_with_data stubDownloader (fun _ => false) c6_db c1_rd true
        none).1.countDoi c1_rd.doi = 1 ∧
    (register_article_with_data stubDownloader (fun _ => false) c6_db c1_rd true
        none).2.download_status.isSome = true :=
  C6_existing_doi_short_circuits stubDownloader (fun _ => false) c6_db c1_rd true none c6_row
    (by decide) (by decide) (by decide)

/-- Claim C10 counterexample: a limiter allowing 1 request per 60 s with
requests recorded at 0 and 30; at clock 30 the request is denied and
`wait_time` says 30 s, yet 30 s later the request is still denied — the
single wait promised by the claim does not suffice. -/
theorem C10_counterexample_single_wait_insufficient :
    (can_make_request { max_requests := 1, time_window := 60, requests := [0, 30] } 30).2 =
        false ∧
    (wait_time { max_requests := 1, time_window := 60, requests := [0, 30] } 30).2 = 30 ∧
    (0 : Int) < 30 ∧ (30 : Int) ≤ 60 ∧
    (can_make_request { max_requests := 1, time_window := 60, requests := [0, 30] }
        (30 + (wait_time { max_requests := 1, time_window := 60, requests := [0, 30] } 30).2)).2
      = false := by
  decide

/-- Witness for C10: one request recorded at 30, queried at 30. -/
theorem C10_rate_limiter_wait_bounds_witness :
    0 < (wait_time { max_requests := 1, time_window := 60, requests := [30] } 30).2 ∧
    (wait_time { max_requests := 1, time_window := 60, requests := [30] } 30).2 ≤ 60 ∧
    (can_make_request { max_requests := 1, time_window := 60, requests := [30] }
        (30 + (wait_time { max_requests := 1, time_window := 60, requests := [30] } 30).2)).2
      = true := by
  have h := C10_rate_limiter_wait_bounds
    { max_requests := 1, time_window := 60, requests := [30] } 30
    rfl (by decide) (by decide) (by decide)
  exact ⟨h.1, h.2.1, h.2.2 (by decide)⟩
end ChemLit
